import Mathlib

set_option maxRecDepth 8000

/-!
Shallow embedding of `pyvac248ipnative.c`, the native packet-capture engine of
the vac248ip camera driver.

The embedding models the three pieces of the source the claims are about:

* command serialization (`pyvac248ipnative_impl_send_command_` and the three
  macro wrappers building Stop / Start / SetExposure datagrams);
* the capture loop of `pyvac248ipnative_capture_packets`: the marker
  zero-initialization loop, the poll/recvfrom classification loop, and the
  shutdown block restoring the socket's blocking mode and timeouts;
* the socket-state effects (fcntl flags, SO_RCVTIMEO / SO_SNDTIMEO values).

Machine integers are Nat/Int.  The network is modelled as a trace of events,
each describing the outcome the C code observes from one poll + recvfrom
round: a poll timeout, a poll error, a recvfrom error, or a received datagram
(`recvfrom` return value = length of the byte list, which is also what is
written into the destination buffer).  Syscall successes/failures of fcntl
and setsockopt are environment booleans; the destination buffer is a byte
list indexed exactly as the C pointer arithmetic indexes `dst`.
-/

/-- The `O_NONBLOCK` flag bit (Linux value 0o4000 = 2048); the code only uses
it via `flags | O_NONBLOCK`, so the choice of the concrete bit is immaterial. -/
def O_NONBLOCK : Nat := 2048

/-- Socket state the engine can observe or mutate: the fcntl status flags and
the two timeout options (each a `struct timeval` as (tv_sec, tv_usec)). -/
structure SocketState where
  flags : Nat
  rcvTimeo : Int × Int
  sndTimeo : Int × Int
deriving Repr, DecidableEq

/-- `pyvac248ipnative_impl_set_socket_timeout_` lines 340-342: the timeval
built from a millisecond count (C `int` division/modulo truncate toward 0). -/
def timevalOfMs (ms : Int) : Int × Int :=
  (Int.tdiv ms 1000, Int.tmod ms 1000 * 1000)

/-- The 8-byte command datagram built by `pyvac248ipnative_impl_send_command_`
(lines 289-298): opcode byte, payload byte, five zeros, additive checksum.
`&&& 0xff` embeds the C casts `(unsigned char)(... & 0xff)`. -/
def send_command_bytes (command data : Nat) : List Nat :=
  [command &&& 0xff, data &&& 0xff, 0x00, 0x00, 0x00, 0x00, 0x00,
   (command + data) &&& 0xff]

/-- `pyvac248ipnative_impl_send_command_stop_` (line 24): opcode 0x5a, data 0. -/
def stop_command_bytes : List Nat := send_command_bytes 0x5a 0x00

/-- `pyvac248ipnative_impl_send_command_start_` (line 20): opcode 0x5a,
data `format | 0x80`. -/
def start_command_bytes (format : Nat) : List Nat :=
  send_command_bytes 0x5a (format ||| 0x80)

/-- `pyvac248ipnative_impl_send_command_exposure_` (line 28): opcode 0xc0,
data `exposure`. -/
def exposure_command_bytes (exposure : Nat) : List Nat :=
  send_command_bytes 0xc0 exposure

/-- The marker-initialization loop at lines 150-152:
`for (p = dst_casted; p < dst_casted + dst_size; p += 1472 + 1) *p = 0;`
i.e. zero the byte at offsets 0, 1473, 2946, ... while the offset is `< dst_size`.
The fuel argument only makes the recursion structural; `dst_size` units of
fuel always suffice because the offset grows by 1473 ≥ 1 each iteration. -/
def zeroMarkersAux (dst_size : Nat) : Nat → Nat → List Nat → List Nat
  | 0, _, buf => buf
  | fuel + 1, off, buf =>
    if off < dst_size then zeroMarkersAux dst_size fuel (off + 1473) (buf.set off 0)
    else buf

/-- The whole marker-initialization loop, starting at offset 0. -/
def zeroMarkers (dst_size : Nat) (buf : List Nat) : List Nat :=
  zeroMarkersAux dst_size dst_size 0 buf

/-- `recvfrom` writing the received bytes into the buffer starting at `pos`
(the C code passes `packet_buffer = dst_casted + packet_buffer_offset + 1`):
byte `pos + i` becomes `bs[i]` for every in-range `i`, all other bytes keep
their value, and the buffer length never changes. -/
def storeBytes (buf : List Nat) (pos : Nat) (bs : List Nat) : List Nat :=
  buf.take pos ++ bs.take (buf.length - pos) ++ buf.drop (pos + bs.length)

/-- Line 211: `frame_number = packet_buffer[0]`. -/
def frame_number_of (bytes : List Nat) : Nat := bytes.getD 0 0

/-- Line 212: `packet_offset = (b1 << 16) | (b2 << 8) | b3` (24-bit big-endian). -/
def packet_offset_of (bytes : List Nat) : Nat :=
  (bytes.getD 1 0 <<< 16) ||| (bytes.getD 2 0 <<< 8) ||| bytes.getD 3 0

/-- The capture parameters the receive loop reads (a slice of the argument
list of `pyvac248ipnative_capture_packets`; C `int`s are `Int`). -/
structure CaptureConfig where
  cameraIp : Nat
  frames : Int
  framePackets : Int
  maxIncorrect : Int
  timeoutMs : Int
deriving Repr, DecidableEq

/-- The mutable state of the receive loop: the destination buffer bytes,
`packets_received_` and `incorrect_packets_length`. -/
structure LoopState where
  buf : List Nat
  received : Nat
  badLen : Nat
deriving Repr, DecidableEq

/-- One poll + recvfrom round as the C code observes it: poll timeout
(`poll_res == 0`), poll failure (`poll_res < 0`, errno = code), recvfrom
failure (`recvfrom_res < 0`, errno = code), or a received datagram from
`sender` whose `recvfrom` result is `bytes.length`. -/
inductive NetEvent where
  | pollTimeout
  | pollError (code : Nat)
  | recvError (code : Nat)
  | datagram (sender : Nat) (bytes : List Nat)
deriving Repr, DecidableEq

/-- How the receive loop ended. -/
inductive LoopExit where
  | timeout
  | pollErr (code : Nat)
  | recvErr (code : Nat)
  | frameComplete
  | tooManyMalformed
  | filled
deriving Repr, DecidableEq

/-- The value of `result` for each loop exit (lines 178, 182, 195, 224, 239;
`filled` leaves the initial `result = 0`). -/
def LoopExit.resultCode : LoopExit → Int
  | .timeout => 1
  | .pollErr _ => -1
  | .recvErr _ => -1
  | .frameComplete => 0
  | .tooManyMalformed => 2
  | .filled => 0

/-- The value of `errno_` captured at the loop exit (lines 183, 196; all other
exits leave the initial `errno_ = 0`). -/
def LoopExit.errnoCode : LoopExit → Nat
  | .pollErr c => c
  | .recvErr c => c
  | _ => 0

/-- Result of one loop iteration: either the loop continues with a new state,
or it breaks out with an exit cause. -/
inductive StepOut where
  | cont (s : LoopState)
  | exit (e : LoopExit) (s : LoopState)
deriving Repr, DecidableEq

/-- The loop state carried by a step outcome. -/
def StepOut.outState : StepOut → LoopState
  | .cont s => s
  | .exit _ s => s

/-- Result of running the loop on a finite event trace: `done` when the
`while` terminated, `pending` when the trace was exhausted first (the real
loop would still be waiting in `poll`). -/
inductive LoopResult where
  | pending (s : LoopState)
  | done (e : LoopExit) (s : LoopState)
deriving Repr, DecidableEq

/-- The exit cause of a finished loop run, `none` while still pending. -/
def LoopResult.exitCause : LoopResult → Option LoopExit
  | .pending _ => none
  | .done e _ => some e

/-- The loop state a run ended (or is pending) in. -/
def LoopResult.finalState : LoopResult → LoopState
  | .pending s => s
  | .done _ s => s

/-- One iteration of the receive loop body (lines 169-246).  The datagram
case first embeds `recvfrom` writing the bytes at
`dst + packets_received_ * 1473 + 1`, then the classification chain:
size 1472 → sender check, `incorrect_packets_length = 0`, sentinel/offset
filter, frame-complete check, else accept; size 48 → sender check, marker
byte set to 1, accept; any other size → malformed-run increment and
threshold check. -/
def captureStep (cfg : CaptureConfig) (s : LoopState) : NetEvent → StepOut
  | .pollTimeout => .exit .timeout s
  | .pollError c => .exit (.pollErr c) s
  | .recvError c => .exit (.recvErr c) s
  | .datagram sender bytes =>
    let buf1 := storeBytes s.buf (s.received * (1472 + 1) + 1) bytes
    if bytes.length = 1472 then
      if sender ≠ cfg.cameraIp then
        .cont { s with buf := buf1 }
      else
        if frame_number_of bytes = 0 ∨
            (packet_offset_of bytes : Int) > (1472 - 4) * (cfg.framePackets - 1) ∨
            packet_offset_of bytes % (1472 - 4) ≠ 0 then
          .cont { buf := buf1, received := s.received, badLen := 0 }
        else if (frame_number_of bytes : Int) > cfg.frames then
          .exit .frameComplete { buf := buf1, received := s.received, badLen := 0 }
        else
          .cont { buf := buf1, received := s.received + 1, badLen := 0 }
    else if bytes.length = 48 then
      if sender ≠ cfg.cameraIp then
        .cont { s with buf := buf1 }
      else
        .cont { buf := buf1.set (s.received * (1472 + 1)) 1,
                received := s.received + 1, badLen := 0 }
    else
      if ((s.badLen + 1 : Nat) : Int) > cfg.maxIncorrect then
        .exit .tooManyMalformed { s with buf := buf1, badLen := s.badLen + 1 }
      else
        .cont { s with buf := buf1, badLen := s.badLen + 1 }

/-- The receive loop `while (packets_received_ < dst_size) { ... }`
(lines 168-247), driven by a finite event trace. -/
def captureLoop (cfg : CaptureConfig) (dstSize : Nat) :
    List NetEvent → LoopState → LoopResult
  | [], s => if s.received < dstSize then .pending s else .done .filled s
  | ev :: rest, s =>
    if s.received < dstSize then
      match captureStep cfg s ev with
      | .exit e s' => .done e s'
      | .cont s' => captureLoop cfg dstSize rest s'
    else .done .filled s

/-- A datagram whose `recvfrom` size matches neither fixed protocol size
(the `else` branch at line 236). -/
def isMalformedEvent : NetEvent → Bool
  | .datagram _ bytes => bytes.length != 1472 && bytes.length != 48
  | _ => false

/-- Environment of one capture call: the socket's initial state, the
success/failure of each syscall the engine issues outside the loop, the
event trace, and the errno a failing restore step would leave. -/
structure CaptureEnv where
  sockInit : SocketState
  getflOk : Bool
  enterSetflOk : Bool
  events : List NetEvent
  restoreSetflOk : Bool
  restoreRcvOk : Bool
  restoreSndOk : Bool
  restoreErrno : Nat
deriving Repr, DecidableEq

/-- `fcntl_res_required != fcntl_res_before` (line 143): true iff the socket
was not already in non-blocking mode. -/
def needNonblock (env : CaptureEnv) : Bool :=
  (env.sockInit.flags ||| O_NONBLOCK) != env.sockInit.flags

/-- The restore condition at lines 255-260: restoration is attempted only
when the flags had been changed, and it fails when restoring the flags fails
or either setsockopt of `pyvac248ipnative_impl_set_socket_timeout_` fails. -/
def restoreFailed (env : CaptureEnv) : Bool :=
  needNonblock env &&
    (!env.restoreSetflOk || !env.restoreRcvOk || !env.restoreSndOk)

/-- The socket state after the shutdown block (lines 254-265).  If the flags
were never changed nothing is touched.  Otherwise `fcntl(F_SETFL, before)`
runs first (on failure the flags stay at the non-blocking value and, by
short-circuit, no timeout is applied); on success
`pyvac248ipnative_impl_set_socket_timeout_` applies the capture's
`network_operation_timeout_ms` to SO_RCVTIMEO and then SO_SNDTIMEO, stopping
at the first failure. -/
def sockAfterShutdown (cfg : CaptureConfig) (env : CaptureEnv) : SocketState :=
  if needNonblock env then
    if env.restoreSetflOk then
      { flags := env.sockInit.flags
        rcvTimeo := if env.restoreRcvOk then timevalOfMs cfg.timeoutMs
                    else env.sockInit.rcvTimeo
        sndTimeo := if env.restoreRcvOk && env.restoreSndOk then timevalOfMs cfg.timeoutMs
                    else env.sockInit.sndTimeo }
    else { env.sockInit with flags := env.sockInit.flags ||| O_NONBLOCK }
  else env.sockInit

/-- Everything `pyvac248ipnative_capture_packets` leaves behind: the return
value, the value written to `*packets_received` (`none` when the function
returned without writing it), the value assigned to `errno` by the final
block (`none` when that assignment did not run), the destination buffer and
the final socket state. -/
structure CaptureOutcome where
  result : Int
  packetsOut : Option Int
  errnoSet : Option Nat
  buf : List Nat
  sock : SocketState
deriving Repr, DecidableEq

/-- `pyvac248ipnative_capture_packets` (lines 93-275).  Phases, in source
order: fcntl F_GETFL (early `return -1` on failure, line 140); fcntl F_SETFL
to non-blocking when needed (early `return -1` on failure, line 145); the
marker zero-initialization loop; the receive loop; the shutdown restore
block with its status override (lines 254-265); the output block
(lines 267-274) zeroing the reported count and publishing `errno_` when the
final result is -1.  The best-effort command sends, sleeps and drains do not
touch any modelled state.  `none` means the trace ended while the loop was
still waiting for packets. -/
def capture_packets (cfg : CaptureConfig) (dstSize : Nat) (buf0 : List Nat)
    (env : CaptureEnv) : Option CaptureOutcome :=
  if env.getflOk = false then
    some { result := -1, packetsOut := none, errnoSet := none,
           buf := buf0, sock := env.sockInit }
  else if needNonblock env = true ∧ env.enterSetflOk = false then
    some { result := -1, packetsOut := none, errnoSet := none,
           buf := buf0, sock := env.sockInit }
  else
    match captureLoop cfg dstSize env.events
        { buf := zeroMarkers dstSize buf0, received := 0, badLen := 0 } with
    | .pending _ => none
    | .done e s =>
      if (if restoreFailed env = true then (-1 : Int) else e.resultCode) = -1 then
        some { result := -1, packetsOut := some 0,
               errnoSet := some (if restoreFailed env = true then
                   (if e.errnoCode = 0 then env.restoreErrno else e.errnoCode)
                 else e.errnoCode),
               buf := s.buf, sock := sockAfterShutdown cfg env }
      else
        some { result := if restoreFailed env = true then (-1 : Int) else e.resultCode,
               packetsOut := some (s.received : Int), errnoSet := none,
               buf := s.buf, sock := sockAfterShutdown cfg env }

/-! Concrete inputs used by counterexamples and witnesses. -/

/-- A small capture configuration: camera ip 10, 2 frames of 2 packets,
malformed threshold 3, 1000 ms timeout. -/
def cfgEx : CaptureConfig :=
  { cameraIp := 10, frames := 2, framePackets := 2, maxIncorrect := 3,
    timeoutMs := 1000 }

/-- A socket initially in blocking mode with zero (disabled) timeouts. -/
def sockBlocking : SocketState :=
  { flags := 0, rcvTimeo := (0, 0), sndTimeo := (0, 0) }

/-- A socket already in non-blocking mode with zero timeouts. -/
def sockNonblock : SocketState :=
  { flags := O_NONBLOCK, rcvTimeo := (0, 0), sndTimeo := (0, 0) }

/-- Environment: blocking socket, all syscalls succeed, the only event is a
poll timeout. -/
def envTimeoutOk : CaptureEnv :=
  { sockInit := sockBlocking, getflOk := true, enterSetflOk := true,
    events := [.pollTimeout], restoreSetflOk := true, restoreRcvOk := true,
    restoreSndOk := true, restoreErrno := 0 }

/-- Same trace against a socket that is already non-blocking. -/
def envNb : CaptureEnv :=
  { sockInit := sockNonblock, getflOk := true, enterSetflOk := true,
    events := [.pollTimeout], restoreSetflOk := true, restoreRcvOk := true,
    restoreSndOk := true, restoreErrno := 0 }

/-- Environment whose initial fcntl F_GETFL fails. -/
def envGetflFail : CaptureEnv :=
  { sockInit := sockBlocking, getflOk := false, enterSetflOk := true,
    events := [], restoreSetflOk := true, restoreRcvOk := true,
    restoreSndOk := true, restoreErrno := 0 }

/-- Environment whose poll fails with errno 5; restoration succeeds. -/
def envPollFail : CaptureEnv :=
  { sockInit := sockBlocking, getflOk := true, enterSetflOk := true,
    events := [.pollError 5], restoreSetflOk := true, restoreRcvOk := true,
    restoreSndOk := true, restoreErrno := 0 }

/-- Environment whose poll fails with errno 5 and whose flag restoration also
fails, leaving errno 9. -/
def envRestoreFail : CaptureEnv :=
  { sockInit := sockBlocking, getflOk := true, enterSetflOk := true,
    events := [.pollError 5], restoreSetflOk := false, restoreRcvOk := true,
    restoreSndOk := true, restoreErrno := 9 }

/-- Environment ending in a poll timeout whose restoration fails at the
SO_RCVTIMEO setsockopt, leaving errno 9. -/
def envTimeoutRestoreFail : CaptureEnv :=
  { sockInit := sockBlocking, getflOk := true, enterSetflOk := true,
    events := [.pollTimeout], restoreSetflOk := true, restoreRcvOk := false,
    restoreSndOk := true, restoreErrno := 9 }

/-- A 1472-byte sentinel datagram: frame number 0, offset 0, zero payload. -/
def bytesSentinel : List Nat := List.replicate 1472 0

/-- A 1472-byte datagram with frame number 3 (beyond `frames = 2`) but the
invalid pixel offset 1 (not a multiple of 1468). -/
def bytesBadOffset : List Nat := 3 :: 0 :: 0 :: 1 :: List.replicate 1468 0

/-- A 1472-byte datagram with frame number 3 (beyond `frames = 2`) and the
valid pixel offset 0. -/
def bytesFrameDone : List Nat := 3 :: 0 :: 0 :: 0 :: List.replicate 1468 0

/-- Outcome of `capture_packets cfgEx 1 [] envTimeoutOk`: Timeout status, the
flags restored, but both socket timeouts rewritten to the capture's 1000 ms. -/
def outTimeoutOk : CaptureOutcome :=
  { result := 1, packetsOut := some 0, errnoSet := none, buf := [],
    sock := { flags := 0, rcvTimeo := (1, 0), sndTimeo := (1, 0) } }

/-- Outcome of `capture_packets cfgEx 1 [] envPollFail`: SystemError with the
poll errno 5 surfaced and the reported count zeroed. -/
def outPollFail : CaptureOutcome :=
  { result := -1, packetsOut := some 0, errnoSet := some 5, buf := [],
    sock := { flags := 0, rcvTimeo := (1, 0), sndTimeo := (1, 0) } }

/-- Outcome of `capture_packets cfgEx 1 [] envRestoreFail`: the poll errno 5
wins over the restore errno 9; the flags stay non-blocking. -/
def outRestoreFail : CaptureOutcome :=
  { result := -1, packetsOut := some 0, errnoSet := some 5, buf := [],
    sock := { flags := 2048, rcvTimeo := (0, 0), sndTimeo := (0, 0) } }

/-- Outcome of `capture_packets cfgEx 1 [] envTimeoutRestoreFail`: no errno
was captured during Receiving, so the restore errno 9 is surfaced and the
Timeout result is overridden to SystemError. -/
def outTimeoutRestoreFail : CaptureOutcome :=
  { result := -1, packetsOut := some 0, errnoSet := some 9, buf := [],
    sock := { flags := 0, rcvTimeo := (0, 0), sndTimeo := (0, 0) } }

/-! Helper lemmas. -/

/-- `c & 0xff` on a nonnegative value is reduction modulo 256. -/
theorem and255_eq_mod (n : Nat) : n &&& 255 = n % 256 := by
  have h := Nat.and_pow_two_sub_one_eq_mod n 8
  norm_num at h
  exact h

/-- `storeBytes` never changes the buffer length. -/
theorem storeBytes_length (buf bs : List Nat) (pos : Nat) :
    (storeBytes buf pos bs).length = buf.length := by
  simp [storeBytes]
  omega

/-- Bytes strictly before the write window and at or past its end are
untouched by `storeBytes`. -/
theorem storeBytes_getElem?_outside (buf bs : List Nat) (pos q : Nat)
    (h : q < pos ∨ pos + bs.length ≤ q) :
    (storeBytes buf pos bs)[q]? = buf[q]? := by
  unfold storeBytes
  rcases Nat.lt_or_ge q buf.length with hq | hq
  · rcases h with h | h
    · rw [List.getElem?_append,
        if_pos (by simp only [List.length_append, List.length_take]; omega)]
      rw [List.getElem?_append,
        if_pos (by simp only [List.length_take]; omega)]
      rw [List.getElem?_take, if_pos h]
    · rw [List.getElem?_append,
        if_neg (by simp only [List.length_append, List.length_take]; omega)]
      rw [List.getElem?_drop]
      congr 1
      simp only [List.length_append, List.length_take]
      omega
  · rw [List.getElem?_eq_none hq, List.getElem?_eq_none]
    simp only [List.length_append, List.length_take, List.length_drop]
    omega

/-- `List.getD` version of `storeBytes_getElem?_outside`. -/
theorem storeBytes_getD_outside (buf bs : List Nat) (pos q d : Nat)
    (h : q < pos ∨ pos + bs.length ≤ q) :
    (storeBytes buf pos bs).getD q d = buf.getD q d := by
  rw [List.getD_eq_getElem?_getD, List.getD_eq_getElem?_getD,
    storeBytes_getElem?_outside buf bs pos q h]

/-- Unfolding the receive loop once on a non-exhausted trace while the slot
bound has not been reached. -/
theorem captureLoop_cons (cfg : CaptureConfig) (dstSize : Nat) (ev : NetEvent)
    (rest : List NetEvent) (s : LoopState) (h : s.received < dstSize) :
    captureLoop cfg dstSize (ev :: rest) s =
      match captureStep cfg s ev with
      | .exit e s' => .done e s'
      | .cont s' => captureLoop cfg dstSize rest s' := by
  simp only [captureLoop, if_pos h]

/-! Claim theorems. -/

/-- C1: the claim says the Init phase zeroes the kind-marker byte at offset
`i * 1473` for every `i < dst_size`.  The code's loop bound
`p < dst_casted + dst_size` compares the byte offset (not the slot index)
against `dst_size`, although the receive loop uses `dst_size` as the slot
count, so for a 2-slot buffer (`dst_size = 2`) only the marker at offset 0 is
zeroed: the marker of slot 1 at offset 1473 keeps its previous value 5. -/
theorem C1_marker_init_misses_slots :
    (zeroMarkers 2 (List.replicate 2946 5)).getD 0 0 = 0 ∧
    (zeroMarkers 2 (List.replicate 2946 5)).getD 1473 0 = 5 ∧ (5 : Nat) ≠ 0 := by
  decide

/-- C8: every command datagram built by the engine is exactly 8 bytes of the
form [opcode][payload][0][0][0][0][0][checksum], the 8th byte equals
(byte0 + byte1) mod 256, Stop is opcode 0x5a payload 0x00, Start(format) is
opcode 0x5a payload `format | 0x80`, and SetExposure(value) is opcode 0xc0
payload `value` (payload bytes as written for 8-bit format/value inputs). -/
theorem C8_command_datagram_format (c d format value : Nat)
    (hf : format < 256) (hv : value < 256) :
    (send_command_bytes c d).length = 8 ∧
    send_command_bytes c d =
      [c % 256, d % 256, 0, 0, 0, 0, 0, (c % 256 + d % 256) % 256] ∧
    stop_command_bytes = send_command_bytes 0x5a 0x00 ∧
    stop_command_bytes.getD 0 0 = 0x5a ∧ stop_command_bytes.getD 1 0 = 0 ∧
    start_command_bytes format = send_command_bytes 0x5a (format ||| 0x80) ∧
    (start_command_bytes format).getD 0 0 = 0x5a ∧
    (start_command_bytes format).getD 1 0 = format ||| 0x80 ∧
    exposure_command_bytes value = send_command_bytes 0xc0 value ∧
    (exposure_command_bytes value).getD 0 0 = 0xc0 ∧
    (exposure_command_bytes value).getD 1 0 = value := by
  have h8 : (256 : Nat) = 2 ^ 8 := by norm_num
  have hstart : format ||| 0x80 < 256 := by
    rw [h8] at hf ⊢
    exact Nat.or_lt_two_pow hf (by norm_num)
  refine ⟨rfl, ?_, rfl, by decide, by decide, rfl, rfl, ?_, rfl, rfl, ?_⟩
  · simp only [send_command_bytes, and255_eq_mod]
    rw [Nat.add_mod]
  · simp only [start_command_bytes, send_command_bytes, List.getD, and255_eq_mod]
    simp [Nat.mod_eq_of_lt hstart]
  · simp only [exposure_command_bytes, send_command_bytes, List.getD, and255_eq_mod]
    simp [Nat.mod_eq_of_lt hv]

/-- Witness for C8 at format 1, value 2. -/
theorem C8_command_datagram_format_witness :
    (1 : Nat) < 256 ∧ (2 : Nat) < 256 ∧
    (send_command_bytes 0x5a 0x81).getD 7 0 =
      ((send_command_bytes 0x5a 0x81).getD 0 0 +
        (send_command_bytes 0x5a 0x81).getD 1 0) % 256 ∧
    (start_command_bytes 1).getD 1 0 = 1 ||| 0x80 ∧
    (exposure_command_bytes 2).getD 1 0 = 2 := by
  have h := C8_command_datagram_format 0x5a 0x81 1 2 (by decide) (by decide)
  refine ⟨by decide, by decide, ?_, h.2.2.2.2.2.2.2.1, h.2.2.2.2.2.2.2.2.2.2⟩
  rw [h.2.1]
  decide

/-- C3 counterexample: a 1472-byte datagram from the camera with
frame_number 0 received into a capture whose next slot payload previously
held the byte 7 at offset 1: the packet is not counted, but `recvfrom` has
already written its bytes into the slot's payload region, so the byte at
offset 1 becomes 0 — refuting "none of its bytes are written to any output
slot". -/
theorem C3_counterexample :
    bytesSentinel.length = 1472 ∧
    frame_number_of bytesSentinel = 0 ∧
    captureStep cfgEx ⟨[7, 7], 0, 0⟩ (.datagram cfgEx.cameraIp bytesSentinel) =
      .cont ⟨[7, 0], 0, 0⟩ ∧
    ([7, 0] : List Nat) ≠ [7, 7] := by
  decide

/-- C3 amended: a 1472-byte camera datagram with frame_number 0 is not
counted (`received` is unchanged), leaves every slot kind-marker byte (the
bytes at offsets `i * 1473`) unchanged, and resets the malformed-run counter;
however its bytes are written into the payload region of the next unfilled
slot (offsets `received * 1473 + 1 ..`), which remains unclaimed. -/
theorem C3_sentinel_not_counted_markers_unchanged (cfg : CaptureConfig)
    (s : LoopState) (bytes : List Nat)
    (hlen : bytes.length = 1472) (hf : frame_number_of bytes = 0) :
    captureStep cfg s (.datagram cfg.cameraIp bytes) =
      .cont ⟨storeBytes s.buf (s.received * (1472 + 1) + 1) bytes, s.received, 0⟩ ∧
    ∀ i d, (storeBytes s.buf (s.received * (1472 + 1) + 1) bytes).getD (i * 1473) d =
      s.buf.getD (i * 1473) d := by
  constructor
  · simp only [captureStep, hlen, hf, if_pos, if_neg]
    simp
  · intro i d
    apply storeBytes_getD_outside
    rcases Nat.lt_or_ge s.received i with h | h
    · right
      have : (s.received + 1) * 1473 ≤ i * 1473 := Nat.mul_le_mul_right 1473 h
      rw [hlen]
      omega
    · left
      have := Nat.mul_le_mul_right 1473 h
      omega

/-- Witness for C3 amended: the sentinel datagram against a 2-byte buffer
with both markers initially 7. -/
theorem C3_sentinel_not_counted_markers_unchanged_witness :
    bytesSentinel.length = 1472 ∧ frame_number_of bytesSentinel = 0 ∧
    captureStep cfgEx ⟨[7, 7], 0, 0⟩ (.datagram cfgEx.cameraIp bytesSentinel) =
      .cont ⟨storeBytes [7, 7] (0 * (1472 + 1) + 1) bytesSentinel, 0, 0⟩ := by
  refine ⟨by decide, by decide, ?_⟩
  exact (C3_sentinel_not_counted_markers_unchanged cfgEx ⟨[7, 7], 0, 0⟩
    bytesSentinel (by decide) (by decide)).1

/-- C4 counterexample: a 1472-byte datagram from the camera with
frame_number 3 (exceeding the target `frames = 2`) but pixel offset 1 — not a
multiple of 1468 — does not terminate the loop: the sentinel/invalid-offset
filter runs first and discards the packet, leaving the loop waiting
(`pending`) rather than done with Success. -/
theorem C4_counterexample :
    bytesBadOffset.length = 1472 ∧
    (frame_number_of bytesBadOffset : Int) > cfgEx.frames ∧
    captureLoop cfgEx 2 [.datagram cfgEx.cameraIp bytesBadOffset] ⟨[7, 7], 0, 0⟩ =
      .pending ⟨[7, 3], 0, 0⟩ := by
  decide

/-- C4 amended: a 1472-byte camera datagram whose frame_number exceeds the
target frame count and whose pixel offset is valid (a multiple of 1468 and at
most 1468 × (frame_packets − 1)) terminates the receive loop immediately with
the frame-complete exit, whose result code is 0 (Success), without counting
the packet: `received` is exactly the number of packets accepted before it. -/
theorem C4_frame_complete_terminates (cfg : CaptureConfig) (dstSize : Nat)
    (s : LoopState) (bytes : List Nat) (rest : List NetEvent)
    (hrun : s.received < dstSize)
    (hlen : bytes.length = 1472)
    (hframes : 0 ≤ cfg.frames)
    (hfn : (frame_number_of bytes : Int) > cfg.frames)
    (hoff1 : ¬ ((packet_offset_of bytes : Int) > (1472 - 4) * (cfg.framePackets - 1)))
    (hoff2 : packet_offset_of bytes % (1472 - 4) = 0) :
    captureLoop cfg dstSize (.datagram cfg.cameraIp bytes :: rest) s =
      .done .frameComplete
        ⟨storeBytes s.buf (s.received * (1472 + 1) + 1) bytes, s.received, 0⟩ ∧
    LoopExit.frameComplete.resultCode = 0 := by
  have hfn0 : frame_number_of bytes ≠ 0 := by
    intro h
    rw [h] at hfn
    simp at hfn
    omega
  rw [captureLoop_cons cfg dstSize _ rest s hrun]
  simp only [captureStep, hlen, if_pos, if_neg]
  rw [if_neg (by simp), if_neg (by push_neg; exact ⟨hfn0, by omega, hoff2⟩), if_pos hfn]
  exact ⟨rfl, rfl⟩

/-- Witness for C4 amended: frame 3 > 2 with valid offset 0 against a 2-slot
capture ends the loop with the Success exit and an unchanged accepted count. -/
theorem C4_frame_complete_terminates_witness :
    bytesFrameDone.length = 1472 ∧
    (frame_number_of bytesFrameDone : Int) > cfgEx.frames ∧
    packet_offset_of bytesFrameDone % (1472 - 4) = 0 ∧
    captureLoop cfgEx 2 [.datagram cfgEx.cameraIp bytesFrameDone] ⟨[7, 7], 0, 0⟩ =
      .done .frameComplete
        ⟨storeBytes [7, 7] (0 * (1472 + 1) + 1) bytesFrameDone, 0, 0⟩ := by
  refine ⟨by decide, by decide, by decide, ?_⟩
  exact (C4_frame_complete_terminates cfgEx 2 ⟨[7, 7], 0, 0⟩ bytesFrameDone []
    (by decide) (by decide) (by decide) (by decide) (by decide) (by decide)).1

/-- A run of consecutive malformed-size datagrams that takes the malformed
counter from its current value past the threshold `m` ends the loop with the
too-many-malformed exit, never counting any of them. -/
theorem malformed_run_exits (cfg : CaptureConfig) (dstSize m : Nat)
    (hm : cfg.maxIncorrect = (m : Int)) :
    ∀ (evs : List NetEvent) (s : LoopState) (rest : List NetEvent),
      s.received < dstSize →
      (∀ ev ∈ evs, isMalformedEvent ev = true) →
      s.badLen ≤ m →
      s.badLen + evs.length = m + 1 →
      ∃ s', captureLoop cfg dstSize (evs ++ rest) s = .done .tooManyMalformed s' ∧
        s'.received = s.received := by
  intro evs
  induction evs with
  | nil =>
    intro s rest hrec hall hle hlen
    simp only [List.length_nil] at hlen
    exact absurd hlen (by omega)
  | cons ev tl ih =>
    intro s rest hrec hall hle hlen
    have hmal : isMalformedEvent ev = true := hall ev (List.mem_cons_self ev tl)
    rw [List.cons_append, captureLoop_cons cfg dstSize ev (tl ++ rest) s hrec]
    match ev, hmal with
    | .datagram sender bytes, hmal =>
      simp only [isMalformedEvent, Bool.and_eq_true, bne_iff_ne, ne_eq] at hmal
      obtain ⟨h1472, h48⟩ := hmal
      simp only [captureStep, if_neg h1472, if_neg h48]
      by_cases hexit : ((s.badLen + 1 : Nat) : Int) > cfg.maxIncorrect
      · rw [if_pos hexit]
        exact ⟨_, rfl, rfl⟩
      · rw [if_neg hexit]
        rw [hm] at hexit
        simp only [List.length_cons] at hlen
        obtain ⟨s', h1, h2⟩ :=
          ih ⟨storeBytes s.buf (s.received * (1472 + 1) + 1) bytes, s.received, s.badLen + 1⟩
            rest hrec (fun e he => hall e (List.mem_cons_of_mem _ he))
            (show s.badLen + 1 ≤ m by omega)
            (show s.badLen + 1 + tl.length = m + 1 by omega)
        exact ⟨s', h1, h2⟩

/-- C6: starting from a zero malformed-run counter, a run of threshold + 1
consecutive datagrams whose receive size is neither 1472 nor 48, from any
senders, makes the receive loop end with the too-many-malformed exit (result
code 2, the TooManyMalformed status), and none of them is counted:
`received` is unchanged. -/
theorem C6_malformed_run_aborts (cfg : CaptureConfig) (dstSize m : Nat)
    (s : LoopState) (evs rest : List NetEvent)
    (hm : cfg.maxIncorrect = (m : Int))
    (h0 : s.badLen = 0) (hrec : s.received < dstSize)
    (hall : ∀ ev ∈ evs, isMalformedEvent ev = true)
    (hlen : evs.length = m + 1) :
    (captureLoop cfg dstSize (evs ++ rest) s).exitCause = some .tooManyMalformed ∧
    (captureLoop cfg dstSize (evs ++ rest) s).finalState.received = s.received ∧
    LoopExit.tooManyMalformed.resultCode = 2 := by
  obtain ⟨s', h1, h2⟩ :=
    malformed_run_exits cfg dstSize m hm evs s rest hrec hall (by omega) (by omega)
  rw [h1]
  exact ⟨rfl, h2, rfl⟩

/-- Witness for C6: four 1-byte datagrams against threshold 3. -/
theorem C6_malformed_run_aborts_witness :
    cfgEx.maxIncorrect = ((3 : Nat) : Int) ∧
    (List.replicate 4 (NetEvent.datagram 0 [1])).length = 3 + 1 ∧
    (captureLoop cfgEx 1 (List.replicate 4 (NetEvent.datagram 0 [1]) ++ [])
        ⟨[], 0, 0⟩).exitCause = some .tooManyMalformed ∧
    (captureLoop cfgEx 1 (List.replicate 4 (NetEvent.datagram 0 [1]) ++ [])
        ⟨[], 0, 0⟩).finalState.received = 0 := by
  have h := C6_malformed_run_aborts cfgEx 1 3 ⟨[], 0, 0⟩
    (List.replicate 4 (NetEvent.datagram 0 [1])) [] (by decide) rfl (by decide)
    (by decide) (by decide)
  exact ⟨by decide, by decide, h.1, h.2.1⟩

/-- C9: every datagram of receive size exactly 1472 or exactly 48 whose
sender is the camera resets the malformed-run counter to zero — including
1472-byte packets that are then discarded as sentinel (frame_number 0) or
invalid-offset packets — and such a datagram never triggers the
too-many-malformed exit. -/
theorem C9_camera_packet_resets_counter (cfg : CaptureConfig) (s : LoopState)
    (sender : Nat) (bytes : List Nat)
    (hs : sender = cfg.cameraIp)
    (hl : bytes.length = 1472 ∨ bytes.length = 48) :
    (captureStep cfg s (.datagram sender bytes)).outState.badLen = 0 ∧
    ∀ s', captureStep cfg s (.datagram sender bytes) ≠ .exit .tooManyMalformed s' := by
  subst hs
  rcases hl with hl | hl
  · simp only [captureStep, hl, if_pos, if_neg]
    rw [if_neg (by simp)]
    constructor
    · split
      · rfl
      · split
        · rfl
        · rfl
    · intro s' h
      split at h
      · exact StepOut.noConfusion h
      · split at h
        · cases h
        · exact StepOut.noConfusion h
  · simp only [captureStep, hl]
    norm_num
    exact ⟨rfl, fun s' h => StepOut.noConfusion h⟩

/-- Witness for C9: a 48-byte camera datagram received while the malformed
counter is 3 resets it to zero. -/
theorem C9_camera_packet_resets_counter_witness :
    ((List.replicate 48 0).length = 1472 ∨ (List.replicate 48 0).length = 48) ∧
    (captureStep cfgEx ⟨[], 0, 3⟩
      (.datagram cfgEx.cameraIp (List.replicate 48 0))).outState.badLen = 0 := by
  refine ⟨by decide, ?_⟩
  exact (C9_camera_packet_resets_counter cfgEx ⟨[], 0, 3⟩ cfgEx.cameraIp
    (List.replicate 48 0) rfl (by decide)).1

/-- When the restore block did not fail, the shutdown leaves the original
flags; the timeouts are untouched when the socket was already non-blocking
and are set to the capture's read-timeout otherwise. -/
theorem sockAfterShutdown_of_not_failed (cfg : CaptureConfig) (env : CaptureEnv)
    (hrf : restoreFailed env = false) :
    (sockAfterShutdown cfg env).flags = env.sockInit.flags ∧
    (needNonblock env = false → sockAfterShutdown cfg env = env.sockInit) ∧
    (needNonblock env = true →
      (sockAfterShutdown cfg env).rcvTimeo = timevalOfMs cfg.timeoutMs ∧
      (sockAfterShutdown cfg env).sndTimeo = timevalOfMs cfg.timeoutMs) := by
  rcases Bool.eq_false_or_eq_true (needNonblock env) with hnb | hnb
  · simp only [restoreFailed, hnb, Bool.true_and] at hrf
    simp only [Bool.or_eq_false_iff, Bool.not_eq_false'] at hrf
    obtain ⟨⟨h1, h2⟩, h3⟩ := hrf
    simp [sockAfterShutdown, hnb, h1, h2, h3]
  · simp [sockAfterShutdown, hnb]

/-- Inversion of a completed capture call that passed the entry fcntl calls:
the receive loop finished, and the outcome is determined by its exit and
final state together with the restore-failure flag. -/
theorem capture_packets_done_inv (cfg : CaptureConfig) (dstSize : Nat)
    (buf0 : List Nat) (env : CaptureEnv) (out : CaptureOutcome)
    (hget : env.getflOk = true)
    (hpass : needNonblock env = true → env.enterSetflOk = true)
    (hcap : capture_packets cfg dstSize buf0 env = some out) :
    ∃ e s, captureLoop cfg dstSize env.events
        ⟨zeroMarkers dstSize buf0, 0, 0⟩ = .done e s ∧
      out = (if (if restoreFailed env = true then (-1 : Int) else e.resultCode) = -1 then
          ⟨-1, some 0, some (if restoreFailed env = true then
              (if e.errnoCode = 0 then env.restoreErrno else e.errnoCode)
            else e.errnoCode), s.buf, sockAfterShutdown cfg env⟩
        else ⟨if restoreFailed env = true then (-1 : Int) else e.resultCode,
          some (s.received : Int), none, s.buf, sockAfterShutdown cfg env⟩) := by
  unfold capture_packets at hcap
  rw [hget] at hcap
  simp only [Bool.true_eq_false, if_false] at hcap
  rw [if_neg (by
    rintro ⟨h1, h2⟩
    rw [hpass h1] at h2
    exact Bool.noConfusion h2)] at hcap
  split at hcap
  · exact Option.noConfusion hcap
  · next e s heq =>
    refine ⟨e, s, heq, ?_⟩
    rw [← apply_ite Option.some] at hcap
    exact (Option.some.inj hcap).symm


/-- C2 counterexample: a blocking socket with disabled (0, 0) timeouts; the
capture ends with status Timeout (result 1) yet leaves both socket timeouts
set to the capture's 1000 ms read-timeout — the timeout settings after the
call are not bit-identical to their values before it. -/
theorem C2_counterexample :
    capture_packets cfgEx 1 [] envTimeoutOk = some outTimeoutOk ∧
    outTimeoutOk.result = 1 ∧
    envTimeoutOk.sockInit.rcvTimeo = (0, 0) ∧
    outTimeoutOk.sock.rcvTimeo = (1, 0) ∧
    ((1, 0) : Int × Int) ≠ ((0, 0) : Int × Int) := by
  decide

/-- C2 amended: on every capture call that ends with status Success, Timeout
or TooManyMalformed (result ≠ -1), the blocking-mode flags after the call are
bit-identical to their values before it; the receive/send timeouts are
bit-identical only when the socket was already non-blocking (nothing is
touched then) — otherwise both are set to the capture's configured
read-timeout, regardless of their previous values. -/
theorem C2_flags_restored_timeouts_rewritten (cfg : CaptureConfig)
    (dstSize : Nat) (buf0 : List Nat) (env : CaptureEnv) (out : CaptureOutcome)
    (hcap : capture_packets cfg dstSize buf0 env = some out)
    (hres : out.result ≠ -1) :
    out.sock.flags = env.sockInit.flags ∧
    (needNonblock env = false → out.sock = env.sockInit) ∧
    (needNonblock env = true →
      out.sock.rcvTimeo = timevalOfMs cfg.timeoutMs ∧
      out.sock.sndTimeo = timevalOfMs cfg.timeoutMs) := by
  have hget : env.getflOk = true := by
    rcases Bool.eq_false_or_eq_true env.getflOk with h | h
    · exact h
    · exfalso
      unfold capture_packets at hcap
      rw [h] at hcap
      simp only [eq_self_iff_true, if_true] at hcap
      rw [← Option.some.inj hcap] at hres
      exact hres rfl
  have hpass : needNonblock env = true → env.enterSetflOk = true := by
    intro h1
    rcases Bool.eq_false_or_eq_true env.enterSetflOk with h | h
    · exact h
    · exfalso
      unfold capture_packets at hcap
      rw [hget] at hcap
      simp only [Bool.true_eq_false, if_false] at hcap
      rw [if_pos ⟨h1, h⟩] at hcap
      rw [← Option.some.inj hcap] at hres
      exact hres rfl
  obtain ⟨e, s, hloop, hout⟩ :=
    capture_packets_done_inv cfg dstSize buf0 env out hget hpass hcap
  have hsock : out.sock = sockAfterShutdown cfg env := by
    rw [hout, apply_ite CaptureOutcome.sock]
    simp
  have hrf : restoreFailed env = false := by
    rcases Bool.eq_false_or_eq_true (restoreFailed env) with h | h
    · exfalso
      apply hres
      rw [hout, h]
      simp
    · exact h
  rw [hsock]
  exact sockAfterShutdown_of_not_failed cfg env hrf

/-- Witness for C2 amended: the Timeout run against an initially blocking
socket keeps the flags and sets both timeouts to the capture's read-timeout. -/
theorem C2_flags_restored_timeouts_rewritten_witness :
    capture_packets cfgEx 1 [] envTimeoutOk = some outTimeoutOk ∧
    outTimeoutOk.result = 1 ∧
    outTimeoutOk.sock.flags = envTimeoutOk.sockInit.flags ∧
    outTimeoutOk.sock.rcvTimeo = timevalOfMs cfgEx.timeoutMs ∧
    outTimeoutOk.sock.sndTimeo = timevalOfMs cfgEx.timeoutMs := by
  have h := C2_flags_restored_timeouts_rewritten cfgEx 1 [] envTimeoutOk
    outTimeoutOk (by decide) (by decide)
  obtain ⟨h1, h2⟩ := h.2.2 (by decide)
  exact ⟨by decide, by decide, h.1, h1, h2⟩

/-- C5 counterexample: when the socket is already non-blocking the shutdown
block is skipped entirely, so the configured read-timeout is NOT reapplied to
the socket's receive/send timeouts — refuting "on every exit from the
Receiving loop the Shutdown phase ... reapplies the configured read-timeout". -/
theorem C5_counterexample :
    needNonblock envNb = false ∧
    capture_packets cfgEx 1 [] envNb = some ⟨1, some 0, none, [], sockNonblock⟩ ∧
    sockNonblock.rcvTimeo ≠ timevalOfMs cfgEx.timeoutMs ∧
    sockNonblock.sndTimeo ≠ timevalOfMs cfgEx.timeoutMs := by
  decide

/-- C5 amended: when the socket was NOT already non-blocking, on every exit
from the receive loop the shutdown block (when it succeeds) restores the
original flags and applies the configured read-timeout as the socket's
receive and send timeouts; and whenever this restoration fails, the final
returned status is SystemError (-1) even if the loop had computed Success,
Timeout or TooManyMalformed. -/
theorem C5_restore_timeout_and_failure_override (cfg : CaptureConfig)
    (dstSize : Nat) (buf0 : List Nat) (env : CaptureEnv) (out : CaptureOutcome)
    (hget : env.getflOk = true) (henter : env.enterSetflOk = true)
    (hnb : needNonblock env = true)
    (hcap : capture_packets cfg dstSize buf0 env = some out) :
    (restoreFailed env = false →
      out.sock.flags = env.sockInit.flags ∧
      out.sock.rcvTimeo = timevalOfMs cfg.timeoutMs ∧
      out.sock.sndTimeo = timevalOfMs cfg.timeoutMs) ∧
    (restoreFailed env = true → out.result = -1) := by
  obtain ⟨e, s, hloop, hout⟩ :=
    capture_packets_done_inv cfg dstSize buf0 env out hget (fun _ => henter) hcap
  have hsock : out.sock = sockAfterShutdown cfg env := by
    rw [hout, apply_ite CaptureOutcome.sock]
    simp
  constructor
  · intro hrf
    have h := sockAfterShutdown_of_not_failed cfg env hrf
    rw [hsock]
    exact ⟨h.1, (h.2.2 hnb).1, (h.2.2 hnb).2⟩
  · intro hrf
    rw [hout, hrf]
    simp

/-- Witness for C5 amended: restoration succeeding after a Timeout run
(flags restored, timeouts set), and the same Timeout run with a failing
SO_RCVTIMEO restore being overridden to SystemError. -/
theorem C5_restore_timeout_and_failure_override_witness :
    needNonblock envTimeoutOk = true ∧
    capture_packets cfgEx 1 [] envTimeoutOk = some outTimeoutOk ∧
    outTimeoutOk.sock.flags = envTimeoutOk.sockInit.flags ∧
    outTimeoutOk.sock.rcvTimeo = timevalOfMs cfgEx.timeoutMs ∧
    outTimeoutOk.sock.sndTimeo = timevalOfMs cfgEx.timeoutMs ∧
    restoreFailed envTimeoutRestoreFail = true ∧
    capture_packets cfgEx 1 [] envTimeoutRestoreFail = some outTimeoutRestoreFail ∧
    outTimeoutRestoreFail.result = -1 := by
  have h := C5_restore_timeout_and_failure_override cfgEx 1 [] envTimeoutOk
    outTimeoutOk (by decide) (by decide) (by decide) (by decide)
  have h2 := C5_restore_timeout_and_failure_override cfgEx 1 []
    envTimeoutRestoreFail outTimeoutRestoreFail (by decide) (by decide)
    (by decide) (by decide)
  obtain ⟨g1, g2, g3⟩ := h.1 (by decide)
  exact ⟨by decide, by decide, g1, g2, g3, by decide, by decide, h2.2 (by decide)⟩

/-- C7 counterexample: when the very first fcntl (F_GETFL) fails the function
returns SystemError (-1) without ever writing `*packets_received`, so no zero
is reported to the caller — refuting "whenever the call returns SystemError
the packets_received value reported to the caller is zero". -/
theorem C7_counterexample :
    capture_packets cfgEx 1 [] envGetflFail =
      some ⟨-1, none, none, [], sockBlocking⟩ ∧
    (⟨-1, none, none, [], sockBlocking⟩ : CaptureOutcome).result = -1 ∧
    ¬ (⟨-1, none, none, [], sockBlocking⟩ : CaptureOutcome).packetsOut = some 0 := by
  decide

/-- C7 amended: on every capture call that gets past the two entry fcntl
calls (on the two early failure returns the out-parameter is left unwritten),
a SystemError (-1) return reports a packet count of zero, and every other
status reports exactly the receive loop's accepted-packet count. -/
theorem C7_reported_count (cfg : CaptureConfig) (dstSize : Nat)
    (buf0 : List Nat) (env : CaptureEnv) (out : CaptureOutcome)
    (hget : env.getflOk = true)
    (hpass : needNonblock env = true → env.enterSetflOk = true)
    (hcap : capture_packets cfg dstSize buf0 env = some out) :
    (out.result = -1 → out.packetsOut = some 0) ∧
    (out.result ≠ -1 → out.packetsOut = some (((captureLoop cfg dstSize
      env.events ⟨zeroMarkers dstSize buf0, 0, 0⟩).finalState.received : Nat) : Int)) := by
  obtain ⟨e, s, hloop, hout⟩ :=
    capture_packets_done_inv cfg dstSize buf0 env out hget hpass hcap
  subst hout
  by_cases hc : (if restoreFailed env = true then (-1 : Int) else e.resultCode) = -1
  · rw [if_pos hc]
    constructor
    · intro _
      rfl
    · intro h
      exact absurd rfl h
  · rw [if_neg hc]
    constructor
    · intro h
      exact absurd h hc
    · intro _
      rw [hloop]
      rfl

/-- Witness for C7 amended: a poll failure with errno 5 ends in SystemError
and reports zero packets. -/
theorem C7_reported_count_witness :
    capture_packets cfgEx 1 [] envPollFail = some outPollFail ∧
    outPollFail.result = -1 ∧
    outPollFail.packetsOut = some 0 := by
  have h := C7_reported_count cfgEx 1 [] envPollFail outPollFail
    (by decide) (fun _ => by decide) (by decide)
  exact ⟨by decide, by decide, h.1 (by decide)⟩

/-- C10: when the restore block fails after the receive loop already captured
a nonzero errno from a poll/recvfrom failure, the errno published to the
caller is the loop's captured code, not the restore failure's; the restore
failure's errno is published only when the loop exit carried no errno
(errno_ still 0). -/
theorem C10_receiving_errno_takes_precedence (cfg : CaptureConfig)
    (dstSize : Nat) (buf0 : List Nat) (env : CaptureEnv) (out : CaptureOutcome)
    (e : LoopExit) (s : LoopState)
    (hget : env.getflOk = true)
    (hpass : needNonblock env = true → env.enterSetflOk = true)
    (hfail : restoreFailed env = true)
    (hloop : captureLoop cfg dstSize env.events
      ⟨zeroMarkers dstSize buf0, 0, 0⟩ = .done e s)
    (hcap : capture_packets cfg dstSize buf0 env = some out) :
    (e.errnoCode ≠ 0 → out.errnoSet = some e.errnoCode) ∧
    (e.errnoCode = 0 → out.errnoSet = some env.restoreErrno) := by
  obtain ⟨e2, s2, hloop2, hout⟩ :=
    capture_packets_done_inv cfg dstSize buf0 env out hget hpass hcap
  rw [hloop] at hloop2
  injection hloop2 with he hs
  subst he
  subst hs
  constructor
  · intro h
    rw [hout, hfail]
    simp [h]
  · intro h
    rw [hout, hfail]
    simp [h]

/-- Witness for C10: poll errno 5 wins over restore errno 9; and with a
Timeout exit (no captured errno) the restore errno 9 is surfaced. -/
theorem C10_receiving_errno_takes_precedence_witness :
    restoreFailed envRestoreFail = true ∧
    capture_packets cfgEx 1 [] envRestoreFail = some outRestoreFail ∧
    outRestoreFail.errnoSet = some (LoopExit.pollErr 5).errnoCode ∧
    restoreFailed envTimeoutRestoreFail = true ∧
    capture_packets cfgEx 1 [] envTimeoutRestoreFail = some outTimeoutRestoreFail ∧
    outTimeoutRestoreFail.errnoSet = some envTimeoutRestoreFail.restoreErrno := by
  have h := C10_receiving_errno_takes_precedence cfgEx 1 [] envRestoreFail
    outRestoreFail (.pollErr 5) ⟨[], 0, 0⟩ (by decide) (fun _ => by decide)
    (by decide) (by decide) (by decide)
  have h2 := C10_receiving_errno_takes_precedence cfgEx 1 []
    envTimeoutRestoreFail outTimeoutRestoreFail .timeout ⟨[], 0, 0⟩ (by decide)
    (fun _ => by decide) (by decide) (by decide) (by decide)
  exact ⟨by decide, by decide, h.1 (by decide), by decide, by decide,
    h2.2 (by decide)⟩
